import Mathlib

/-!
Verification of the Bayesian posterior-inference engine of decision-compass
(source file src/unnamed/part_004).

The engine's arithmetic is embedded over ℚ (JavaScript numbers idealised as
exact rationals).  The Monte-Carlo sampler (jStat-based, driven by
Math.random) is modelled as an abstract function of (α, β, n): theorems about
the entry points quantify over all sample lists the sampler could return,
and counterexamples instantiate it with concrete possible outputs.  The
real-valued convergence diagnostics (which use sqrt / log) are embedded over
ℝ in a later section, with JavaScript NaN/Infinity semantics made explicit.
-/

namespace Bayesian

/-- Source line 9: number of Monte Carlo samples for posterior estimation. -/
def MONTE_CARLO_SAMPLES : ℕ := 10000

/-- Source line 16: base scale factor for converting evidence to pseudo-observations. -/
def EVIDENCE_STRENGTH_SCALE : ℚ := 5

/-- Source line 28: default concentration for the prior Beta distribution. -/
def DEFAULT_PRIOR_CONCENTRATION : ℚ := 10

/-- Source line 31: minimum alpha/beta to prevent numerical instability. -/
def MIN_BETA_PARAM : ℚ := 1/2

/-- Criterion record (types file): id, name, importance (1-100). -/
structure Criterion where
  id : String
  name : String
  importance : ℚ
deriving DecidableEq, Repr

/-- CriterionEvaluation record (types file). -/
structure CriterionEvaluation where
  criterionId : String
  supportsDecision : Bool
  strength : ℚ
  confidence : ℚ
deriving DecidableEq, Repr

/-- EvidenceItem record (types file); only the fields the engine reads. -/
structure EvidenceItem where
  id : String
  value : ℚ
  weight : ℚ
deriving DecidableEq, Repr

/-- BayesianConfig (source lines 43-52).  Every field is optional in the
TypeScript interface; defaults are applied by destructuring inside each
entry point, which we mirror with Option.getD. -/
structure BayesianConfig where
  evidenceStrengthScale : Option ℚ := none
  priorConcentration : Option ℚ := none
  applyCorrelationAdjustment : Option Bool := none
  useQuasiRandom : Option Bool := none
deriving DecidableEq, Repr

/-- CorrelationGroup (source lines 80-83). -/
structure CorrelationGroup where
  ids : List String
  correlationFactor : ℚ
deriving DecidableEq, Repr

/-- The two values of the SensitivityItem.direction string field
('supporting' / 'opposing', source line 77). -/
inductive SensitivityDirection where
  | supporting
  | opposing
deriving DecidableEq, Repr

/-- SensitivityItem (source lines 73-78). -/
structure SensitivityItem where
  criterionId : String
  criterionName : String
  impact : ℚ
  direction : SensitivityDirection
deriving DecidableEq, Repr

/-- PosteriorResult (source lines 54-59) without the real-valued
convergenceDiagnostic field, which is a pure function of the samples and is
modelled separately (computeConvergenceDiagnostic below). -/
structure PosteriorResult where
  posterior : ℚ
  credibleInterval : ℚ × ℚ
  samples : List ℚ
deriving DecidableEq, Repr

/-- EvaluationPosteriorResult (source lines 68-71), again with the
convergence diagnostic kept as the separate function of the samples. -/
structure EvaluationPosteriorResult where
  posterior : ℚ
  credibleInterval : ℚ × ℚ
  samples : List ℚ
  winPercentage : ℚ
  sensitivityAnalysis : List SensitivityItem
deriving DecidableEq, Repr

/-- JavaScript Math.round on an exact rational: floor(x + 1/2)
(round half towards positive infinity). -/
def jsRound (q : ℚ) : ℤ := ⌊q + 1/2⌋

/-- Rounding to one decimal, Math.round(x * 10) / 10 (source line 581). -/
def jsRound1 (q : ℚ) : ℚ := (jsRound (q * 10) : ℚ) / 10

/-- Source lines 647-649: mean of a list of samples. -/
def mean (samples : List ℚ) : ℚ :=
  samples.sum / samples.length

/-- Source lines 654-661: unbiased sample variance; 0 when fewer than two
samples. -/
def variance (samples : List ℚ) : ℚ :=
  if samples.length < 2 then 0
  else ((samples.map (fun v => (v - mean samples)^2)).sum) / ((samples.length : ℚ) - 1)

/-- Source lines 637-642: 95% credible interval from samples.  The JS
Array.sort with comparator (a, b) => a - b is an ascending stable sort,
modelled by List.mergeSort; Math.floor(length * 0.025) and
Math.floor(length * 0.975) are the natural-number divisions below.  The JS
out-of-range index access (only possible for an empty list) is modelled by
getD with default 0. -/
def computeCredibleInterval (samples : List ℚ) : ℚ × ℚ :=
  let sorted := samples.mergeSort (fun a b => decide (a ≤ b))
  let lowerIdx := samples.length * 25 / 1000
  let upperIdx := samples.length * 975 / 1000
  (sorted.getD lowerIdx 0, sorted.getD upperIdx 0)

/-- Structural-recursion engine for the van der Corput radical inverse in
base 2 (source lines 94-106).  The source loops while i > 0 with
i := floor(i / 2) each turn; the first argument is fuel, and fuel = i
suffices because i strictly decreases. -/
def vdcGo : ℕ → ℕ → ℚ → ℚ → ℚ
  | 0, _, _, acc => acc
  | fuel + 1, i, f, acc =>
    if i = 0 then acc else vdcGo fuel (i / 2) (f / 2) (acc + f * ((i % 2 : ℕ) : ℚ))

/-- Source lines 94-106: van der Corput sequence member, base 2 (the only
base the engine uses). -/
def vanDerCorput (n : ℕ) : ℚ := vdcGo n n (1/2) 0

/-- Source lines 112-122: Halton / van der Corput quasi-random sequence.
The source draws offset = Math.floor(Math.random() * 1000) from the global
random source; that offset is NOT an input of the API, so it is exposed
here as an explicit parameter in order to reason about its influence. -/
def generateQuasiRandomSequence (offset n : ℕ) : List ℚ :=
  (List.range n).map (fun i => vanDerCorput (i + offset + 1))

/-- Source lines 349-350, 452-453, 603-604: Beta prior parameterisation,
identical in all three aggregation sites. -/
def priorBetaParams (prior concentration : ℚ) : ℚ × ℚ :=
  let priorProb := prior / 100
  (max MIN_BETA_PARAM (priorProb * concentration),
   max MIN_BETA_PARAM ((1 - priorProb) * concentration))

/-- Source lines 313-326: effective weight for correlated evidence. -/
def computeCorrelationAdjustedWeight (baseWeight correlationFactor : ℚ)
    (groupSize : ℕ) : ℚ :=
  if groupSize ≤ 1 ∨ correlationFactor = 0 then baseWeight
  else
    let effectiveCount : ℚ := 1 + ((groupSize : ℚ) - 1) * (1 - correlationFactor)
    baseWeight * (effectiveCount / (groupSize : ℚ))

/-- Lookup in the correlationAdjustments map (source lines 473-481): the
map is populated group by group with Map.set, so for an id occurring in
several groups the LAST group wins; ids absent from every group fall back
to the multiplier 1 (the ?? 1 at source line 496). -/
def correlationMultiplier (groups : List CorrelationGroup) (id : String) : ℚ :=
  match (groups.filter (fun g => decide (id ∈ g.ids))).getLast? with
  | some g => computeCorrelationAdjustedWeight 1 g.correlationFactor g.ids.length
  | none => 1

/-- Source lines 415-432: pseudo-count and evidence strength of one
criterion evaluation; returns (pseudoCount, evidenceStrength). -/
def computeEvaluationPseudoCount (strength confidence importance scale : ℚ) :
    ℚ × ℚ :=
  ((confidence / 100) * (importance / 100) * scale, strength / 100)

/-- Source lines 485-486 and 607-608: importance of the criterion referenced
by an evaluation, defaulting to 50 when no criterion has the id. -/
def evaluationImportance (criteria : List Criterion) (e : CriterionEvaluation) : ℚ :=
  match criteria.find? (fun c => c.id == e.criterionId) with
  | some c => c.importance
  | none => 50

/-- One turn of the evaluations fold (source lines 484-508): adj gives the
correlation multiplier for an id (constantly 1 when the adjustment is off,
and inside the sensitivity recomputation). -/
def evaluationStep (criteria : List Criterion) (scale : ℚ) (adj : String → ℚ)
    (ab : ℚ × ℚ) (e : CriterionEvaluation) : ℚ × ℚ :=
  let importance := evaluationImportance criteria e
  let pc := computeEvaluationPseudoCount e.strength e.confidence importance scale
  let adjustedPseudoCount := pc.1 * adj e.criterionId
  if e.supportsDecision then
    (ab.1 + pc.2 * adjustedPseudoCount, ab.2 + (1 - pc.2) * adjustedPseudoCount)
  else
    (ab.1 + (1 - pc.2) * adjustedPseudoCount, ab.2 + pc.2 * adjustedPseudoCount)

/-- One turn of the evidence-item fold (source lines 367-381). -/
def evidenceStep (scale : ℚ) (ab : ℚ × ℚ) (item : EvidenceItem) : ℚ × ℚ :=
  let weight := item.weight / 100
  let value := item.value / 100
  let pseudoCount := weight * scale
  (ab.1 + value * pseudoCount, ab.2 + (1 - value) * pseudoCount)

/-- The (α, β) pair calculatePosteriorFromEvaluations hands to the sampler:
prior parameterisation (lines 451-453) followed by the evaluations fold
(lines 472-508).  With zero evaluations the fold leaves the prior pair
unchanged, matching the early-return branch. -/
def evalAggregatedParams (prior : ℚ) (evaluations : List CriterionEvaluation)
    (criteria : List Criterion) (config : BayesianConfig)
    (correlationGroups : List CorrelationGroup) : ℚ × ℚ :=
  let scale := config.evidenceStrengthScale.getD EVIDENCE_STRENGTH_SCALE
  let conc := config.priorConcentration.getD DEFAULT_PRIOR_CONCENTRATION
  let applyCorr := config.applyCorrelationAdjustment.getD false
  let adj : String → ℚ := fun id =>
    if applyCorr = true ∧ correlationGroups.length ≠ 0 then
      correlationMultiplier correlationGroups id
    else 1
  evaluations.foldl (evaluationStep criteria scale adj) (priorBetaParams prior conc)

/-- The (α, β) pair calculatePosterior hands to the sampler (source lines
345-381). -/
def evidenceAggregatedParams (prior : ℚ) (evidence : List EvidenceItem)
    (config : BayesianConfig) : ℚ × ℚ :=
  let scale := config.evidenceStrengthScale.getD EVIDENCE_STRENGTH_SCALE
  let conc := config.priorConcentration.getD DEFAULT_PRIOR_CONCENTRATION
  evidence.foldl (evidenceStep scale) (priorBetaParams prior conc)

/-- Abstract posterior sampler: sampleBetaStable (source lines 152-211) is a
randomized procedure driven by jStat and Math.random; its output for a call
with parameters (α, β) and sample count n is modelled as an arbitrary
function of those arguments.  The useQuasiRandom flag and all ambient
randomness are absorbed into the abstraction; theorems quantify over it. -/
abbrev Sampler := ℚ → ℚ → ℕ → List ℚ

/-- Source lines 334-400: calculatePosterior (evidence-item entry point). -/
def calculatePosterior (S : Sampler) (prior : ℚ) (evidence : List EvidenceItem)
    (config : BayesianConfig) : PosteriorResult :=
  let conc := config.priorConcentration.getD DEFAULT_PRIOR_CONCENTRATION
  let ab0 := priorBetaParams prior conc
  if evidence.length = 0 then
    let samples := S ab0.1 ab0.2 MONTE_CARLO_SAMPLES
    let ci := computeCredibleInterval samples
    { posterior := mean samples * 100,
      credibleInterval := (ci.1 * 100, ci.2 * 100),
      samples := samples.map (fun s => s * 100) }
  else
    let ab := evidenceAggregatedParams prior evidence config
    let samples := S ab.1 ab.2 MONTE_CARLO_SAMPLES
    let posterior := mean samples * 100
    let ci := computeCredibleInterval samples
    { posterior := max 1 (min 99 posterior),
      credibleInterval := (max 0 (ci.1 * 100), min 100 (ci.2 * 100)),
      samples := samples.map (fun s => s * 100) }

/-- Source lines 590-628: internal recomputation used by the sensitivity
analysis; no correlation adjustment, returns only the posterior mean. -/
def calculatePosteriorFromEvaluationsInternal (S : Sampler) (prior : ℚ)
    (evaluations : List CriterionEvaluation) (criteria : List Criterion)
    (config : BayesianConfig) : ℚ :=
  let ab := evalAggregatedParams prior evaluations criteria
    { config with applyCorrelationAdjustment := some false } []
  mean (S ab.1 ab.2 MONTE_CARLO_SAMPLES) * 100

/-- Source lines 551-585: leave-one-out sensitivity analysis.  The reduced
set drops every evaluation whose criterionId matches the held-out one; the
impact is rounded to one decimal; the JS stable sort descending by absolute
impact is List.mergeSort with the comparator below. -/
def computeSensitivityAnalysis (S : Sampler) (prior : ℚ)
    (evaluations : List CriterionEvaluation) (criteria : List Criterion)
    (fullPosterior : ℚ) (config : BayesianConfig) : List SensitivityItem :=
  if evaluations.length ≤ 1 then []
  else
    (evaluations.map (fun e =>
      let reducedEvaluations :=
        evaluations.filter (fun x => x.criterionId != e.criterionId)
      let reduced := calculatePosteriorFromEvaluationsInternal S prior
        reducedEvaluations criteria config
      { criterionId := e.criterionId,
        criterionName :=
          match criteria.find? (fun c => c.id == e.criterionId) with
          | some c => c.name
          | none => "Unknown",
        impact := jsRound1 (fullPosterior - reduced),
        direction := if e.supportsDecision then SensitivityDirection.supporting
                     else SensitivityDirection.opposing : SensitivityItem }
      )).mergeSort (fun a b => decide (|b.impact| ≤ |a.impact|))

/-- Source lines 437-540: calculatePosteriorFromEvaluations (the
criterion-evaluation entry point). -/
def calculatePosteriorFromEvaluations (S : Sampler) (prior : ℚ)
    (evaluations : List CriterionEvaluation) (criteria : List Criterion)
    (config : BayesianConfig) (correlationGroups : List CorrelationGroup) :
    EvaluationPosteriorResult :=
  let conc := config.priorConcentration.getD DEFAULT_PRIOR_CONCENTRATION
  let ab0 := priorBetaParams prior conc
  if evaluations.length = 0 then
    let samples := S ab0.1 ab0.2 MONTE_CARLO_SAMPLES
    let ci := computeCredibleInterval samples
    let winPercentage :=
      ((samples.filter (fun s => decide ((1:ℚ)/2 < s))).length : ℚ) /
        (samples.length : ℚ) * 100
    { posterior := mean samples * 100,
      credibleInterval := (ci.1 * 100, ci.2 * 100),
      samples := samples.map (fun s => s * 100),
      winPercentage := winPercentage,
      sensitivityAnalysis := [] }
  else
    let ab := evalAggregatedParams prior evaluations criteria config correlationGroups
    let samples := S ab.1 ab.2 MONTE_CARLO_SAMPLES
    let winPercentage :=
      ((samples.filter (fun s => decide ((1:ℚ)/2 < s))).length : ℚ) /
        (samples.length : ℚ) * 100
    let posterior := mean samples * 100
    let ci := computeCredibleInterval samples
    let sens := computeSensitivityAnalysis S prior evaluations criteria
      posterior config
    { posterior := max 1 (min 99 posterior),
      credibleInterval := (max 0 (ci.1 * 100), min 100 (ci.2 * 100)),
      samples := samples.map (fun s => s * 100),
      winPercentage := (jsRound winPercentage : ℚ),
      sensitivityAnalysis := sens }

/-!
Model of sampleBetaStable (source lines 152-211).  The moderate-parameter
regime delegates to jStat (inverse CDF or direct sampling); the extreme
regime is a log-space rejection sampler.  Transcendental pieces
(Math.log, jStat.gammaln, jStat's samplers) are abstracted into an oracle;
JavaScript -Infinity log values are modelled by Option ℚ with none = -∞
(Math.log never returns +Infinity or NaN on inputs in [0, 1)).
-/

/-- Comparison a < b on JavaScript log values that are finite or -Infinity:
nothing is below -∞, and -∞ is below every finite value. -/
def logLT : Option ℚ → Option ℚ → Bool
  | _, none => false
  | none, some _ => true
  | some a, some b => decide (a < b)

/-- Oracle for the effects the sampler draws from its environment. -/
structure SamplingOracle where
  /-- Successive Math.random() draws consumed by the rejection loop. -/
  rand : ℕ → ℚ
  /-- Math.log on a draw in [0, 1): none is -Infinity (only at 0). -/
  logQ : ℚ → Option ℚ
  /-- Finite part of logBetaPdf (source lines 140-146) for interior x:
  the transcendental (α-1)log x + (β-1)log(1-x) - logBeta(α,β). -/
  pdfCore : ℚ → ℚ → ℚ → ℚ
  /-- jStat.beta.sample draws inside the guarded fallback (source lines
  201-208); none models the call throwing. -/
  jstatSample : ℕ → Option ℚ
  /-- jStat.beta.sample draws in the moderate non-quasi branch. -/
  jstatDirect : ℕ → ℚ
  /-- jStat.beta.inv, the Beta inverse CDF. -/
  betaInv : ℚ → ℚ → ℚ → ℚ
  /-- Math.floor(Math.random() * 1000) drawn by generateQuasiRandomSequence. -/
  offset : ℕ

/-- Source lines 140-146: logBetaPdf returns -Infinity outside (0, 1) and
the finite log density inside. -/
def logBetaPdfM (pdfCore : ℚ → ℚ) (x : ℚ) : Option ℚ :=
  if x ≤ 0 ∨ 1 ≤ x then none else some (pdfCore x)

/-- Source lines 178-180: the mode the rejection sampler normalises by. -/
def betaMode (alpha beta : ℚ) : ℚ :=
  if 1 < alpha ∧ 1 < beta then (alpha - 1) / (alpha + beta - 2)
  else if beta ≤ alpha then 99/100 else 1/100

/-- The acceptance test of source lines 190-195: accept when
Math.log(u) < logPdf(x) - logPdfMode.  When logPdf(x) = -∞ the right side
is -∞ (or NaN when logPdfMode is also -∞) and the comparison is false
either way; when only logPdfMode = -∞ the right side is +∞ and the
comparison is true because Math.log(u) is finite or -∞. -/
def acceptProposal (O : SamplingOracle) (pdfAt : ℚ → Option ℚ)
    (logPdfMode : Option ℚ) (x u : ℚ) : Bool :=
  match pdfAt x with
  | none => false
  | some px =>
    match logPdfMode with
    | some pm => logLT (O.logQ u) (some (px - pm))
    | none => true

/-- Source lines 184-198: the bounded rejection loop.  fuel is the number
of attempts still allowed (initially maxAttempts = n * 100) and idx indexes
the Math.random() stream, two draws per attempt. -/
def rejectionLoop (O : SamplingOracle) (pdfAt : ℚ → Option ℚ)
    (logPdfMode : Option ℚ) (n : ℕ) : ℕ → ℕ → List ℚ → List ℚ
  | 0, _, acc => acc
  | fuel + 1, idx, acc =>
    if acc.length < n then
      let x := O.rand idx
      let acc' := if acceptProposal O pdfAt logPdfMode x (O.rand (idx + 1))
        then acc ++ [x] else acc
      rejectionLoop O pdfAt logPdfMode n fuel (idx + 2) acc'
    else acc

/-- Source lines 201-208: the guarded jStat fallback, one push per turn,
using the mode when jStat.beta.sample throws. -/
def fallbackFill (O : SamplingOracle) (mode : ℚ) (k : ℕ) : List ℚ :=
  (List.range k).map (fun i => (O.jstatSample i).getD mode)

/-- Source lines 152-211: sampleBetaStable. -/
def sampleBetaStable (O : SamplingOracle) (alpha beta : ℚ) (n : ℕ)
    (useQuasiRandom : Bool) : List ℚ :=
  if 1/10 ≤ alpha ∧ 1/10 ≤ beta ∧ alpha ≤ 1000 ∧ beta ≤ 1000 then
    if useQuasiRandom then
      (generateQuasiRandomSequence O.offset n).map (fun u => O.betaInv u alpha beta)
    else
      (List.range n).map (fun i => O.jstatDirect i)
  else
    let mode := betaMode alpha beta
    let pdfAt := logBetaPdfM (O.pdfCore alpha beta)
    let r := rejectionLoop O pdfAt (pdfAt mode) n (n * 100) 0 []
    r ++ fallbackFill O mode (n - r.length)

/-!
Convergence diagnostics (source lines 222-299).  These are real-valued
(sqrt), so they live in ℝ; possible JavaScript NaN / ±Infinity outcomes of
the Geweke division are made explicit through the JSNum type.  For sample
sets with fewer than 10 elements the JS code produces NaN through the mean
of an empty slice; the embedding is only claimed faithful for 10 or more
samples (every call in the engine passes 10000 samples).
-/

/-- Classification of a JavaScript number: finite, ±Infinity or NaN. -/
inductive JSNum where
  | fin (x : ℝ)
  | posInf
  | negInf
  | nan

/-- JavaScript division for a nonnegative divisor: x/0 is NaN when x = 0
and ±Infinity otherwise. -/
noncomputable def jsDiv (a b : ℝ) : JSNum :=
  if b = 0 then
    (if a = 0 then JSNum.nan else if 0 < a then JSNum.posInf else JSNum.negInf)
  else JSNum.fin (a / b)

/-- Apply a real function to the finite case, as JS arithmetic does when it
maps ±Infinity to ±Infinity (both uses below have that property). -/
def JSNum.mapFin (f : ℝ → ℝ) : JSNum → JSNum
  | JSNum.fin x => JSNum.fin (f x)
  | w => w

/-- JavaScript Math.abs(z) < c: false for NaN and ±Infinity. -/
def JSNum.absLt (z : JSNum) (c : ℝ) : Prop :=
  match z with
  | JSNum.fin x => |x| < c
  | _ => False

/-- JavaScript Math.round over ℝ. -/
noncomputable def jsRoundR (x : ℝ) : ℝ := (⌊x + 1/2⌋ : ℤ)

/-- Source line 37. -/
noncomputable def GEWEKE_THRESHOLD : ℝ := 196/100

/-- Source lines 222-246: Geweke diagnostic, first 10% against last 50%,
with an isNaN z normalised to 0.  Math.floor(n * 0.1) and
Math.floor(n * 0.5) are the natural-number divisions n / 10 and n / 2. -/
noncomputable def computeGewekeDiagnostic (samples : List ℚ) : JSNum :=
  let n := samples.length
  let firstN := n / 10
  let lastN := n / 2
  let firstSamples := samples.take firstN
  let lastSamples := samples.drop (n - lastN)
  let se1 : ℝ := Real.sqrt ((variance firstSamples : ℝ) / (firstN : ℝ))
  let se2 : ℝ := Real.sqrt ((variance lastSamples : ℝ) / (lastN : ℝ))
  let z := jsDiv ((mean firstSamples : ℝ) - (mean lastSamples : ℝ))
    (Real.sqrt (se1 * se1 + se2 * se2))
  match z with
  | JSNum.nan => JSNum.fin 0
  | w => w

/-- Source lines 252-274: effective sample size.  The lag-1 autocovariance
loop is the sum over consecutive pairs.  (When rho = -1/2 exactly the JS
value is Infinity; this embedding returns 1 there - the case is outside
every claim.) -/
def computeEffectiveSampleSize (samples : List ℚ) : ℤ :=
  let n := samples.length
  if n < 10 then n
  else
    let sampleMean := mean samples
    let sampleVar := variance samples
    if sampleVar = 0 then n
    else
      let autoCorrSum := ((samples.zip samples.tail).map
        (fun p => (p.1 - sampleMean) * (p.2 - sampleMean))).sum
      let autoCorr := autoCorrSum / (((n : ℚ) - 1) * sampleVar)
      let rho := max (-(1/2)) (min (99/100) autoCorr)
      let ess := (n : ℚ) / (1 + 2 * rho)
      max 1 (jsRound ess)

/-- Source lines 280-283: Monte Carlo standard error. -/
noncomputable def computeMCError (samples : List ℚ) (ess : ℤ) : ℝ :=
  Real.sqrt ((variance samples : ℝ) / (ess : ℝ))

/-- ConvergenceDiagnostic record (source lines 61-66).  isConverged is the
proposition |z| < 1.96 on the unrounded normalised z. -/
structure ConvergenceDiagnostic where
  gewekeZScore : JSNum
  isConverged : Prop
  effectiveSampleSize : ℤ
  mcError : ℝ

/-- Source lines 288-299: the full diagnostic record; the reported z-score
and MC error are rounded to 2 and 3 decimals respectively. -/
noncomputable def computeConvergenceDiagnostic (samples : List ℚ) :
    ConvergenceDiagnostic :=
  let gewekeZ := computeGewekeDiagnostic samples
  let ess := computeEffectiveSampleSize samples
  { gewekeZScore := gewekeZ.mapFin (fun x => jsRoundR (x * 100) / 100),
    isConverged := gewekeZ.absLt GEWEKE_THRESHOLD,
    effectiveSampleSize := ess,
    mcError := jsRoundR (computeMCError samples ess * 1000) / 1000 }

/-!
Specification-side definitions: these are written from the sentences of the
claims (not from the source) and are compared with the source embedding in
refinement theorems.
-/

/-- The per-evaluation update exactly as claim C1 words it: pseudoCount =
(confidence/100) x (importance/100) x scale with importance taken from the
criterion whose id equals the evaluation's criterionId (defaulting to 50
when absent - the shared lookup evaluationImportance), evidenceStrength =
strength/100, and the α/β roles swapped when supportsDecision is false. -/
def specEvaluationStep (criteria : List Criterion) (scale : ℚ)
    (ab : ℚ × ℚ) (e : CriterionEvaluation) : ℚ × ℚ :=
  let importance := evaluationImportance criteria e
  let pseudoCount := (e.confidence / 100) * (importance / 100) * scale
  let evidenceStrength := e.strength / 100
  if e.supportsDecision then
    (ab.1 + evidenceStrength * pseudoCount,
     ab.2 + (1 - evidenceStrength) * pseudoCount)
  else
    (ab.1 + (1 - evidenceStrength) * pseudoCount,
     ab.2 + evidenceStrength * pseudoCount)

/-- Correlation-adjusted pseudo-count of one evaluation, the mass the claim
C10 invariant tracks. -/
def adjustedPseudoCount (criteria : List Criterion) (scale : ℚ)
    (adj : String → ℚ) (e : CriterionEvaluation) : ℚ :=
  (computeEvaluationPseudoCount e.strength e.confidence
    (evaluationImportance criteria e) scale).1 * adj e.criterionId

/-- Exact mean α/(α+β) of a Beta parameter pair. -/
def exactBetaMean (ab : ℚ × ℚ) : ℚ := ab.1 / (ab.1 + ab.2)

/-- The whole aggregation as claim C1 words it: prior parameterisation
followed by the spec per-evaluation fold (no correlation adjustment). -/
def specAggregatedParams (prior : ℚ) (evaluations : List CriterionEvaluation)
    (criteria : List Criterion) (config : BayesianConfig) : ℚ × ℚ :=
  evaluations.foldl
    (specEvaluationStep criteria (config.evidenceStrengthScale.getD EVIDENCE_STRENGTH_SCALE))
    (priorBetaParams prior (config.priorConcentration.getD DEFAULT_PRIOR_CONCENTRATION))

/-- The raw (pre-rounding) win percentage of a sample list: 100 times the
fraction of samples strictly above 1/2, as claim C5 words it. -/
def rawWinPercentage (samples : List ℚ) : ℚ :=
  (samples.countP (fun s => decide ((1:ℚ)/2 < s)) : ℚ) / (samples.length : ℚ) * 100

/-- The Geweke z-score exactly as claim C9 words it: (mean of the first 10%
minus mean of the last 50%) divided by sqrt(var1/n1 + var2/n2) over those
two segments, with the JavaScript division semantics made explicit. -/
noncomputable def gewekeSpecZ (samples : List ℚ) : JSNum :=
  let n := samples.length
  let firstSamples := samples.take (n / 10)
  let lastSamples := samples.drop (n - n / 2)
  jsDiv ((mean firstSamples : ℝ) - (mean lastSamples : ℝ))
    (Real.sqrt ((variance firstSamples : ℝ) / (firstSamples.length : ℝ) +
      (variance lastSamples : ℝ) / (lastSamples.length : ℝ)))

/-- NaN normalised to 0, the other outcomes untouched. -/
def normalizeNaN : JSNum → JSNum
  | JSNum.nan => JSNum.fin 0
  | w => w

/-!  Concrete inputs used by witnesses and counterexamples. -/

/-- Concrete single evaluation used by several witnesses. -/
def sampleEval : CriterionEvaluation := ⟨"a", true, 100, 100⟩

/-- Second concrete evaluation, with its own criterion id. -/
def evalB : CriterionEvaluation := ⟨"b", true, 100, 100⟩

/-- Sampler returning n copies of 1/2, a possible output of the real
sampler, used to instantiate theorems at concrete inputs. -/
def constHalfSampler : Sampler := fun _ _ n => List.replicate n (1/2)

/-- Sampler output with 249 of 10000 samples at 1 and the rest at 0: the
empirical mean 0.0249 exceeds the empirical 97.5th percentile 0, so the
returned posterior lies strictly above the upper credible bound. -/
def skewSampler : Sampler := fun _ _ n => List.replicate (n - 249) 0 ++ List.replicate 249 1

/-- Sampler output with a single sample at 1 and the other 9999 at 0. -/
def oneTopSampler : Sampler := fun _ _ n => List.replicate (n - 1) 0 ++ [1]

/-- Sampler whose mean output drops from 0.60 to 0.59 when alpha moves past
7; both outputs are possible sample sets of the true sampler, exhibiting
Monte-Carlo noise between two independent invocations. -/
def dropSampler : Sampler := fun a _ n =>
  List.replicate n (if a ≤ 7 then 3/5 else 59/100)

/-- Sampler whose constant output is 0.50003 for the full aggregation
(alpha = 10) and 0.5 for each reduced aggregation (alpha = 7.5); both are
possible outputs of the true randomized sampler. -/
def nudgeSampler : Sampler := fun a _ n =>
  List.replicate n (if a ≤ 9 then 1/2 else 1/2 + 3/100000)

/-- An oracle whose only nontrivial content is the quasi-random offset
(modelling Math.floor(Math.random()*1000), source line 115); betaInv is the
identity, which is the true Beta(1,1) quantile function. -/
def oracleWithOffset (o : ℕ) : SamplingOracle :=
  { rand := fun _ => 1/2,
    logQ := fun _ => some 0,
    pdfCore := fun _ _ _ => 0,
    jstatSample := fun _ => none,
    jstatDirect := fun _ => 1/2,
    betaInv := fun u _ _ => u,
    offset := o }

/-- Sample sequence of length 10000 whose first 10% are the constant
0.0002006 and whose last 50% are one 1 followed by 4999 zeros: the exact
Geweke z-score is 0.003, which the diagnostic reports as 0 after rounding
to two decimals. -/
def gewekeList : List ℚ :=
  List.replicate 1000 (1003/5000000) ++
    (List.replicate 4000 0 ++ (1 :: List.replicate 4999 0))

/-!  General helper lemmas about the statistical utilities. -/

theorem mean_replicate {n : ℕ} (a : ℚ) (h : n ≠ 0) :
    mean (List.replicate n a) = a := by
  have hn : (n : ℚ) ≠ 0 := Nat.cast_ne_zero.mpr h
  simp [mean, List.sum_replicate, nsmul_eq_mul]
  field_simp

theorem variance_replicate (n : ℕ) (a : ℚ) :
    variance (List.replicate n a) = 0 := by
  by_cases h : n < 2
  · unfold variance
    rw [if_pos (by simpa using h)]
  · have hn : n ≠ 0 := by omega
    unfold variance
    rw [if_neg (by simpa using h)]
    simp [mean_replicate a hn, List.map_replicate, List.sum_replicate]

theorem mean_nonneg_of_forall {l : List ℚ} (h : ∀ x ∈ l, 0 ≤ x) :
    0 ≤ mean l := by
  unfold mean
  exact div_nonneg (List.sum_nonneg h) (Nat.cast_nonneg _)

theorem mean_le_one_of_forall {l : List ℚ} (h : ∀ x ∈ l, x ≤ 1) :
    mean l ≤ 1 := by
  unfold mean
  rcases Nat.eq_zero_or_pos l.length with h0 | hpos
  · simp [h0, List.length_eq_zero.mp h0]
  · have hlen : (0 : ℚ) < l.length := by exact_mod_cast hpos
    rw [div_le_one hlen]
    calc l.sum ≤ l.length • (1 : ℚ) := List.sum_le_card_nsmul l 1 h
    _ = (l.length : ℚ) := by simp

theorem variance_nonneg (l : List ℚ) : 0 ≤ variance l := by
  unfold variance
  split
  · exact le_refl 0
  · rename_i h
    apply div_nonneg
    · exact List.sum_nonneg (by
        intro x hx
        obtain ⟨v, _, rfl⟩ := List.mem_map.mp hx
        positivity)
    · have : 2 ≤ l.length := by omega
      have : (2 : ℚ) ≤ (l.length : ℚ) := by exact_mod_cast this
      linarith

theorem evaluationStep_const_one (criteria : List Criterion) (scale : ℚ) :
    evaluationStep criteria scale (fun _ => 1) = specEvaluationStep criteria scale := by
  funext ab e
  unfold evaluationStep specEvaluationStep computeEvaluationPseudoCount evaluationImportance
  by_cases hs : e.supportsDecision <;> simp [hs, mul_one]

theorem evalAggregatedParams_corr_off (prior : ℚ)
    (evaluations : List CriterionEvaluation) (criteria : List Criterion)
    (config : BayesianConfig) (groups : List CorrelationGroup)
    (h : config.applyCorrelationAdjustment.getD false = false) :
    evalAggregatedParams prior evaluations criteria config groups =
      specAggregatedParams prior evaluations criteria config := by
  unfold evalAggregatedParams specAggregatedParams
  rw [h]
  simp only [Bool.false_eq_true, false_and, if_false, evaluationStep_const_one]

theorem evaluationStep_mass (criteria : List Criterion) (scale : ℚ)
    (adj : String → ℚ) (ab : ℚ × ℚ) (e : CriterionEvaluation) :
    (evaluationStep criteria scale adj ab e).1 +
      (evaluationStep criteria scale adj ab e).2 =
    ab.1 + ab.2 + adjustedPseudoCount criteria scale adj e := by
  unfold evaluationStep adjustedPseudoCount computeEvaluationPseudoCount
  by_cases hs : e.supportsDecision <;> simp [hs] <;> ring

theorem evidenceStep_mass (scale : ℚ) (ab : ℚ × ℚ) (item : EvidenceItem) :
    (evidenceStep scale ab item).1 + (evidenceStep scale ab item).2 =
    ab.1 + ab.2 + item.weight / 100 * scale := by
  unfold evidenceStep
  simp only
  ring

theorem evaluationFold_mass (criteria : List Criterion) (scale : ℚ)
    (adj : String → ℚ) (evals : List CriterionEvaluation) (ab0 : ℚ × ℚ) :
    (evals.foldl (evaluationStep criteria scale adj) ab0).1 +
      (evals.foldl (evaluationStep criteria scale adj) ab0).2 =
    ab0.1 + ab0.2 + (evals.map (adjustedPseudoCount criteria scale adj)).sum := by
  induction evals generalizing ab0 with
  | nil => simp
  | cons e t ih =>
    simp only [List.foldl_cons, List.map_cons, List.sum_cons]
    rw [ih, evaluationStep_mass]
    ring

theorem evidenceFold_mass (scale : ℚ) (items : List EvidenceItem) (ab0 : ℚ × ℚ) :
    (items.foldl (evidenceStep scale) ab0).1 +
      (items.foldl (evidenceStep scale) ab0).2 =
    ab0.1 + ab0.2 + (items.map (fun i => i.weight / 100 * scale)).sum := by
  induction items generalizing ab0 with
  | nil => simp
  | cons i t ih =>
    simp only [List.foldl_cons, List.map_cons, List.sum_cons]
    rw [ih, evidenceStep_mass]
    ring

/-- C2: for every prior percentage p and concentration c, both entry points
parameterise the prior Beta distribution as alpha0 = max(0.5, (p/100)·c) and
beta0 = max(0.5, (1 − p/100)·c); with p = 50 and the default concentration
c = 10 this gives alpha0 = beta0 = 5 exactly. -/
theorem c2_prior_parameterization :
    (∀ p c : ℚ, priorBetaParams p c =
      (max (1/2) (p / 100 * c), max (1/2) ((1 - p / 100) * c))) ∧
    (∀ (prior : ℚ) (criteria : List Criterion) (config : BayesianConfig)
        (groups : List CorrelationGroup),
      evalAggregatedParams prior [] criteria config groups =
        priorBetaParams prior
          (config.priorConcentration.getD DEFAULT_PRIOR_CONCENTRATION) ∧
      evidenceAggregatedParams prior [] config =
        priorBetaParams prior
          (config.priorConcentration.getD DEFAULT_PRIOR_CONCENTRATION)) ∧
    priorBetaParams 50 10 = (5, 5) ∧
    DEFAULT_PRIOR_CONCENTRATION = 10 := by
  refine ⟨fun p c => rfl, fun prior criteria config groups => ⟨rfl, rfl⟩, ?_, rfl⟩
  norm_num [priorBetaParams, MIN_BETA_PARAM]

/-- C10: in both aggregation folds each item adds exactly its (correlation-
adjusted) pseudo-count to alpha + beta, whatever its direction and
value/strength; consequently after any list alpha + beta is the prior mass
plus the sum of the items' pseudo-counts. -/
theorem c10_mass_invariant :
    (∀ (criteria : List Criterion) (scale : ℚ) (adj : String → ℚ)
        (ab : ℚ × ℚ) (e : CriterionEvaluation),
      (evaluationStep criteria scale adj ab e).1 +
        (evaluationStep criteria scale adj ab e).2 =
      ab.1 + ab.2 + adjustedPseudoCount criteria scale adj e) ∧
    (∀ (scale : ℚ) (ab : ℚ × ℚ) (item : EvidenceItem),
      (evidenceStep scale ab item).1 + (evidenceStep scale ab item).2 =
      ab.1 + ab.2 + item.weight / 100 * scale) ∧
    (∀ (criteria : List Criterion) (scale : ℚ) (adj : String → ℚ)
        (evals : List CriterionEvaluation) (ab0 : ℚ × ℚ),
      (evals.foldl (evaluationStep criteria scale adj) ab0).1 +
        (evals.foldl (evaluationStep criteria scale adj) ab0).2 =
      ab0.1 + ab0.2 + (evals.map (adjustedPseudoCount criteria scale adj)).sum) ∧
    (∀ (scale : ℚ) (items : List EvidenceItem) (ab0 : ℚ × ℚ),
      (items.foldl (evidenceStep scale) ab0).1 +
        (items.foldl (evidenceStep scale) ab0).2 =
      ab0.1 + ab0.2 + (items.map (fun i => i.weight / 100 * scale)).sum) :=
  ⟨evaluationStep_mass, evidenceStep_mass, evaluationFold_mass, evidenceFold_mass⟩

/-- C1: with the correlation adjustment off, calculatePosteriorFromEvaluations
aggregates (alpha, beta) exactly by the claimed per-evaluation rule
(pseudoCount = confidence/100 · importance/100 · scale, importance defaulting
to 50 for an unknown criterion id, evidenceStrength = strength/100, roles of
alpha/beta swapped when supportsDecision is false), and the samples it draws
come from that aggregated pair. -/
theorem c1_evaluation_update (S : Sampler) (prior : ℚ)
    (evaluations : List CriterionEvaluation) (criteria : List Criterion)
    (config : BayesianConfig) (groups : List CorrelationGroup)
    (h : config.applyCorrelationAdjustment.getD false = false) :
    evalAggregatedParams prior evaluations criteria config groups =
      specAggregatedParams prior evaluations criteria config ∧
    (calculatePosteriorFromEvaluations S prior evaluations criteria config groups).samples =
      (S (specAggregatedParams prior evaluations criteria config).1
         (specAggregatedParams prior evaluations criteria config).2
         MONTE_CARLO_SAMPLES).map (fun s => s * 100) := by
  have hagg := evalAggregatedParams_corr_off prior evaluations criteria config groups h
  refine ⟨hagg, ?_⟩
  unfold calculatePosteriorFromEvaluations
  by_cases hlen : evaluations.length = 0
  · rw [if_pos hlen]
    obtain rfl : evaluations = [] := List.length_eq_zero.mp hlen
    simp only [specAggregatedParams, List.foldl_nil]
  · rw [if_neg hlen]
    simp only [hagg]

theorem c1_evaluation_update_witness :
    (({} : BayesianConfig).applyCorrelationAdjustment.getD false = false) ∧
    (evalAggregatedParams 50 [sampleEval] [] {} [] =
       specAggregatedParams 50 [sampleEval] [] {} ∧
     (calculatePosteriorFromEvaluations constHalfSampler 50 [sampleEval] [] {} []).samples =
       (constHalfSampler (specAggregatedParams 50 [sampleEval] [] {}).1
          (specAggregatedParams 50 [sampleEval] [] {}).2
          MONTE_CARLO_SAMPLES).map (fun s => s * 100)) :=
  ⟨rfl, c1_evaluation_update constHalfSampler 50 [sampleEval] [] {} [] rfl⟩

/-!  Credible interval facts used for claim C3. -/

theorem getD_zero_bounds {l : List ℚ} (h : ∀ x ∈ l, 0 ≤ x ∧ x ≤ 1) (i : ℕ) :
    0 ≤ l.getD i 0 ∧ l.getD i 0 ≤ 1 := by
  rw [List.getD_eq_getElem?_getD]
  cases hx : l[i]? with
  | none => norm_num
  | some v =>
    have hv := h v (List.getElem?_mem hx)
    simpa using hv

theorem credibleInterval_bounds {samples : List ℚ}
    (h : ∀ x ∈ samples, 0 ≤ x ∧ x ≤ 1) :
    0 ≤ (computeCredibleInterval samples).1 ∧
    (computeCredibleInterval samples).1 ≤ (computeCredibleInterval samples).2 ∧
    (computeCredibleInterval samples).2 ≤ 1 := by
  have hperm : (samples.mergeSort (fun a b => decide (a ≤ b))).Perm samples :=
    List.mergeSort_perm samples _
  have hmem : ∀ x ∈ samples.mergeSort (fun a b => decide (a ≤ b)), 0 ≤ x ∧ x ≤ 1 :=
    fun x hx => h x (hperm.mem_iff.mp hx)
  have hlen : (samples.mergeSort (fun a b => decide (a ≤ b))).length = samples.length :=
    hperm.length_eq
  have hlow := getD_zero_bounds hmem (samples.length * 25 / 1000)
  have hhigh := getD_zero_bounds hmem (samples.length * 975 / 1000)
  refine ⟨?_, ?_, ?_⟩
  · exact hlow.1
  · -- ordering of the two sorted positions
    rcases Nat.eq_zero_or_pos samples.length with hL | hL
    · obtain rfl : samples = [] := List.length_eq_zero.mp hL
      simp [computeCredibleInterval]
    · have hsorted : List.Sorted (· ≤ ·) (samples.mergeSort (fun a b => decide (a ≤ b))) :=
        List.sorted_mergeSort' samples
      have hu_lt : samples.length * 975 / 1000 < samples.length := by
        rw [Nat.div_lt_iff_lt_mul (by norm_num)]
        omega
      have hl_le : samples.length * 25 / 1000 ≤ samples.length * 975 / 1000 :=
        Nat.div_le_div_right (Nat.mul_le_mul_left _ (by norm_num))
      have hl_lt : samples.length * 25 / 1000 < samples.length := lt_of_le_of_lt hl_le hu_lt
      show (samples.mergeSort _).getD _ 0 ≤ (samples.mergeSort _).getD _ 0
      rw [List.getD_eq_getElem?_getD, List.getD_eq_getElem?_getD,
        List.getElem?_eq_getElem (by rw [hlen]; exact hl_lt),
        List.getElem?_eq_getElem (by rw [hlen]; exact hu_lt)]
      simp only [Option.getD_some]
      have := @List.Sorted.rel_get_of_le ℚ (· ≤ ·) _ _ hsorted
        ⟨samples.length * 25 / 1000, by rw [hlen]; exact hl_lt⟩
        ⟨samples.length * 975 / 1000, by rw [hlen]; exact hu_lt⟩
        (by exact hl_le)
      simpa [List.get_eq_getElem] using this
  · exact hhigh.2

/-- C3 (amended): given that every value the sampler returns lies in [0, 1],
both entry points return a credible interval with lo ≤ hi and lo, hi in
[0, 100], and a posterior in [0, 100]; the sandwich lo ≤ posterior ≤ hi of
the original claim is NOT guaranteed (see the counterexample). -/
theorem c3_interval_bounds (S : Sampler)
    (hS : ∀ (a b : ℚ) (n : ℕ), ∀ x ∈ S a b n, 0 ≤ x ∧ x ≤ 1)
    (prior : ℚ) (evidence : List EvidenceItem)
    (evaluations : List CriterionEvaluation) (criteria : List Criterion)
    (config : BayesianConfig) (groups : List CorrelationGroup) :
    (0 ≤ (calculatePosterior S prior evidence config).credibleInterval.1 ∧
     (calculatePosterior S prior evidence config).credibleInterval.1 ≤
       (calculatePosterior S prior evidence config).credibleInterval.2 ∧
     (calculatePosterior S prior evidence config).credibleInterval.2 ≤ 100 ∧
     0 ≤ (calculatePosterior S prior evidence config).posterior ∧
     (calculatePosterior S prior evidence config).posterior ≤ 100) ∧
    (0 ≤ (calculatePosteriorFromEvaluations S prior evaluations criteria config
        groups).credibleInterval.1 ∧
     (calculatePosteriorFromEvaluations S prior evaluations criteria config
        groups).credibleInterval.1 ≤
       (calculatePosteriorFromEvaluations S prior evaluations criteria config
        groups).credibleInterval.2 ∧
     (calculatePosteriorFromEvaluations S prior evaluations criteria config
        groups).credibleInterval.2 ≤ 100 ∧
     0 ≤ (calculatePosteriorFromEvaluations S prior evaluations criteria config
        groups).posterior ∧
     (calculatePosteriorFromEvaluations S prior evaluations criteria config
        groups).posterior ≤ 100) := by
  have hfacts : ∀ a b : ℚ,
      (0 ≤ (computeCredibleInterval (S a b MONTE_CARLO_SAMPLES)).1 ∧
       (computeCredibleInterval (S a b MONTE_CARLO_SAMPLES)).1 ≤
         (computeCredibleInterval (S a b MONTE_CARLO_SAMPLES)).2 ∧
       (computeCredibleInterval (S a b MONTE_CARLO_SAMPLES)).2 ≤ 1) ∧
      (0 ≤ mean (S a b MONTE_CARLO_SAMPLES) ∧ mean (S a b MONTE_CARLO_SAMPLES) ≤ 1) := by
    intro a b
    refine ⟨credibleInterval_bounds (hS a b MONTE_CARLO_SAMPLES), ?_, ?_⟩
    · exact mean_nonneg_of_forall (fun x hx => (hS a b MONTE_CARLO_SAMPLES x hx).1)
    · exact mean_le_one_of_forall (fun x hx => (hS a b MONTE_CARLO_SAMPLES x hx).2)
  constructor
  · unfold calculatePosterior
    by_cases hlen : evidence.length = 0
    · rw [if_pos hlen]
      dsimp only
      obtain ⟨⟨hc1, hc12, hc2⟩, hm0, hm1⟩ := hfacts
        (priorBetaParams prior (config.priorConcentration.getD DEFAULT_PRIOR_CONCENTRATION)).1
        (priorBetaParams prior (config.priorConcentration.getD DEFAULT_PRIOR_CONCENTRATION)).2
      refine ⟨by positivity, by nlinarith, by nlinarith, by positivity, by nlinarith⟩
    · rw [if_neg hlen]
      dsimp only
      obtain ⟨⟨hc1, hc12, hc2⟩, hm0, hm1⟩ := hfacts
        (evidenceAggregatedParams prior evidence config).1
        (evidenceAggregatedParams prior evidence config).2
      refine ⟨le_max_left 0 _, ?_, ?_, ?_, ?_⟩
      · rw [max_eq_right (by nlinarith), min_eq_right (by nlinarith)]
        nlinarith
      · exact min_le_left 100 _
      · calc (0:ℚ) ≤ 1 := by norm_num
        _ ≤ max 1 (min 99 (mean (S _ _ MONTE_CARLO_SAMPLES) * 100)) := le_max_left 1 _
      · apply max_le (by norm_num)
        calc min 99 (mean (S _ _ MONTE_CARLO_SAMPLES) * 100) ≤ 99 := min_le_left _ _
        _ ≤ 100 := by norm_num
  · unfold calculatePosteriorFromEvaluations
    by_cases hlen : evaluations.length = 0
    · rw [if_pos hlen]
      dsimp only
      obtain ⟨⟨hc1, hc12, hc2⟩, hm0, hm1⟩ := hfacts
        (priorBetaParams prior (config.priorConcentration.getD DEFAULT_PRIOR_CONCENTRATION)).1
        (priorBetaParams prior (config.priorConcentration.getD DEFAULT_PRIOR_CONCENTRATION)).2
      refine ⟨by positivity, by nlinarith, by nlinarith, by positivity, by nlinarith⟩
    · rw [if_neg hlen]
      dsimp only
      obtain ⟨⟨hc1, hc12, hc2⟩, hm0, hm1⟩ := hfacts
        (evalAggregatedParams prior evaluations criteria config groups).1
        (evalAggregatedParams prior evaluations criteria config groups).2
      refine ⟨le_max_left 0 _, ?_, ?_, ?_, ?_⟩
      · rw [max_eq_right (by nlinarith), min_eq_right (by nlinarith)]
        nlinarith
      · exact min_le_left 100 _
      · calc (0:ℚ) ≤ 1 := by norm_num
        _ ≤ max 1 (min 99 (mean (S _ _ MONTE_CARLO_SAMPLES) * 100)) := le_max_left 1 _
      · apply max_le (by norm_num)
        calc min 99 (mean (S _ _ MONTE_CARLO_SAMPLES) * 100) ≤ 99 := min_le_left _ _
        _ ≤ 100 := by norm_num

theorem constHalfSampler_range :
    ∀ (a b : ℚ) (n : ℕ), ∀ x ∈ constHalfSampler a b n, 0 ≤ x ∧ x ≤ 1 := by
  intro a b n x hx
  rw [List.eq_of_mem_replicate hx]
  norm_num

theorem c3_interval_bounds_witness :
    (∀ (a b : ℚ) (n : ℕ), ∀ x ∈ constHalfSampler a b n, 0 ≤ x ∧ x ≤ 1) ∧
    ((0 ≤ (calculatePosterior constHalfSampler 50 [] {}).credibleInterval.1 ∧
      (calculatePosterior constHalfSampler 50 [] {}).credibleInterval.1 ≤
        (calculatePosterior constHalfSampler 50 [] {}).credibleInterval.2 ∧
      (calculatePosterior constHalfSampler 50 [] {}).credibleInterval.2 ≤ 100 ∧
      0 ≤ (calculatePosterior constHalfSampler 50 [] {}).posterior ∧
      (calculatePosterior constHalfSampler 50 [] {}).posterior ≤ 100) ∧
     (0 ≤ (calculatePosteriorFromEvaluations constHalfSampler 50 [sampleEval] [] {}
        []).credibleInterval.1 ∧
      (calculatePosteriorFromEvaluations constHalfSampler 50 [sampleEval] [] {}
        []).credibleInterval.1 ≤
        (calculatePosteriorFromEvaluations constHalfSampler 50 [sampleEval] [] {}
        []).credibleInterval.2 ∧
      (calculatePosteriorFromEvaluations constHalfSampler 50 [sampleEval] [] {}
        []).credibleInterval.2 ≤ 100 ∧
      0 ≤ (calculatePosteriorFromEvaluations constHalfSampler 50 [sampleEval] [] {}
        []).posterior ∧
      (calculatePosteriorFromEvaluations constHalfSampler 50 [sampleEval] [] {}
        []).posterior ≤ 100)) :=
  ⟨constHalfSampler_range,
   c3_interval_bounds constHalfSampler constHalfSampler_range 50 [] [sampleEval] [] {} []⟩

theorem skewSampler_sorted :
    List.Sorted (· ≤ ·) (List.replicate 9751 (0:ℚ) ++ List.replicate 249 1) := by
  rw [List.Sorted, List.pairwise_append]
  refine ⟨List.pairwise_replicate.mpr (Or.inr le_rfl),
    List.pairwise_replicate.mpr (Or.inr le_rfl), ?_⟩
  intro x hx y hy
  rw [List.eq_of_mem_replicate hx, List.eq_of_mem_replicate hy]
  norm_num

/-- C3 counterexample: at this possible sampler output the returned
credible interval's upper bound is 0 while the returned posterior is 2.49,
refuting lo ≤ posterior ≤ hi as stated. -/
theorem c3_sandwich_counterexample :
    (calculatePosterior skewSampler 50 [] {}).credibleInterval.2 <
      (calculatePosterior skewSampler 50 [] {}).posterior := by
  have hs : ∀ a b : ℚ, skewSampler a b MONTE_CARLO_SAMPLES =
      List.replicate 9751 (0:ℚ) ++ List.replicate 249 1 := by
    intro a b
    norm_num [skewSampler, MONTE_CARLO_SAMPLES]
  unfold calculatePosterior
  dsimp only
  rw [if_pos (show ([] : List EvidenceItem).length = 0 from rfl)]
  dsimp only
  rw [hs]
  have hlen : (List.replicate 9751 (0:ℚ) ++ List.replicate 249 1).length = 10000 := by
    rw [List.length_append, List.length_replicate, List.length_replicate]
  have hmean : mean (List.replicate 9751 (0:ℚ) ++ List.replicate 249 1) = 249/10000 := by
    rw [mean, hlen, List.sum_append, List.sum_replicate, List.sum_replicate]
    norm_num
  have hci : (computeCredibleInterval
      (List.replicate 9751 (0:ℚ) ++ List.replicate 249 1)).2 = 0 := by
    unfold computeCredibleInterval
    dsimp only
    rw [List.mergeSort_eq_self skewSampler_sorted, hlen]
    rw [show (10000 * 975 / 1000 : ℕ) = 9750 from rfl]
    rw [List.getD_eq_getElem?_getD, List.getElem?_append]
    rw [if_pos (by rw [List.length_replicate]; norm_num)]
    rw [List.getElem?_replicate, if_pos (by norm_num)]
    rfl
  rw [hci, hmean]
  norm_num

/-- C5 (amended): the returned winPercentage is the fraction of posterior
samples strictly above 0.5 as a percentage; it is rounded to the nearest
integer only when the evaluations list is non-empty, and returned unrounded
by the empty-evaluations early return. -/
theorem c5_win_percentage (S : Sampler) (prior : ℚ)
    (evaluations : List CriterionEvaluation) (criteria : List Criterion)
    (config : BayesianConfig) (groups : List CorrelationGroup) :
    (calculatePosteriorFromEvaluations S prior evaluations criteria config
        groups).winPercentage =
      (if evaluations.length = 0 then
        rawWinPercentage (S (evalAggregatedParams prior evaluations criteria config groups).1
          (evalAggregatedParams prior evaluations criteria config groups).2
          MONTE_CARLO_SAMPLES)
      else
        (jsRound (rawWinPercentage
          (S (evalAggregatedParams prior evaluations criteria config groups).1
             (evalAggregatedParams prior evaluations criteria config groups).2
             MONTE_CARLO_SAMPLES)) : ℚ)) := by
  unfold calculatePosteriorFromEvaluations rawWinPercentage
  by_cases hlen : evaluations.length = 0
  · obtain rfl : evaluations = [] := List.length_eq_zero.mp hlen
    dsimp only
    rw [if_pos (show ([] : List CriterionEvaluation).length = 0 from rfl),
      if_pos (show ([] : List CriterionEvaluation).length = 0 from rfl)]
    dsimp only
    rw [List.countP_eq_length_filter]
    rfl
  · dsimp only
    rw [if_neg hlen, if_neg hlen]
    dsimp only
    rw [List.countP_eq_length_filter]

/-- C5 counterexample: with empty evaluations the engine returns the raw
win percentage 1/100 = 0.01, not its rounding 0, refuting the claim that
the returned winPercentage is always rounded to the nearest integer. -/
theorem c5_rounding_counterexample :
    (calculatePosteriorFromEvaluations oneTopSampler 50 [] [] {} []).winPercentage = 1/100 ∧
    (jsRound ((1:ℚ)/100) : ℚ) = 0 ∧ ((1:ℚ)/100 ≠ 0) := by
  refine ⟨?_, ?_, by norm_num⟩
  · have hs : ∀ a b : ℚ, oneTopSampler a b MONTE_CARLO_SAMPLES =
        List.replicate 9999 (0:ℚ) ++ [1] := by
      intro a b
      norm_num [oneTopSampler, MONTE_CARLO_SAMPLES]
    unfold calculatePosteriorFromEvaluations
    dsimp only
    rw [if_pos (show ([] : List CriterionEvaluation).length = 0 from rfl)]
    dsimp only
    rw [hs]
    rw [List.filter_append, List.filter_replicate]
    norm_num
  · rw [show (jsRound ((1:ℚ)/100)) = ⌊(1:ℚ)/100 + 1/2⌋ from rfl,
      show (1:ℚ)/100 + 1/2 = 51/100 by norm_num]
    norm_num [Int.floor_eq_iff]

/-!  Claim C7: monotonicity under a strongly supporting evaluation. -/

theorem evaluationImportance_nonneg (criteria : List Criterion)
    (himp : ∀ c ∈ criteria, 0 ≤ c.importance) (e : CriterionEvaluation) :
    0 ≤ evaluationImportance criteria e := by
  unfold evaluationImportance
  cases hf : criteria.find? (fun c => c.id == e.criterionId) with
  | none => norm_num
  | some c => exact himp c (List.mem_of_find?_eq_some hf)

theorem specEvaluationStep_ge (criteria : List Criterion) (scale : ℚ)
    (hscale : 0 ≤ scale) (himp : ∀ c ∈ criteria, 0 ≤ c.importance)
    (ab : ℚ × ℚ) (e : CriterionEvaluation)
    (he : 0 ≤ e.strength ∧ e.strength ≤ 100 ∧ 0 ≤ e.confidence) :
    ab.1 ≤ (specEvaluationStep criteria scale ab e).1 ∧
    ab.2 ≤ (specEvaluationStep criteria scale ab e).2 := by
  obtain ⟨h1, h2, h3⟩ := he
  have himp' : 0 ≤ evaluationImportance criteria e :=
    evaluationImportance_nonneg criteria himp e
  have hpc : 0 ≤ (e.confidence / 100) * (evaluationImportance criteria e / 100) * scale := by
    positivity
  have hq : (0:ℚ) ≤ 1 - e.strength / 100 := by linarith
  have hs' : (0:ℚ) ≤ e.strength / 100 := by linarith
  have hA := mul_nonneg hs' hpc
  have hB := mul_nonneg hq hpc
  unfold specEvaluationStep
  cases hb : e.supportsDecision
  · rw [if_neg (by simp)]
    exact ⟨by dsimp only; linarith, by dsimp only; linarith⟩
  · rw [if_pos rfl]
    exact ⟨by dsimp only; linarith, by dsimp only; linarith⟩

theorem specFold_ge (criteria : List Criterion) (scale : ℚ)
    (hscale : 0 ≤ scale) (himp : ∀ c ∈ criteria, 0 ≤ c.importance)
    (evals : List CriterionEvaluation)
    (hvals : ∀ e ∈ evals, 0 ≤ e.strength ∧ e.strength ≤ 100 ∧ 0 ≤ e.confidence)
    (ab : ℚ × ℚ) :
    ab.1 ≤ (evals.foldl (specEvaluationStep criteria scale) ab).1 ∧
    ab.2 ≤ (evals.foldl (specEvaluationStep criteria scale) ab).2 := by
  induction evals generalizing ab with
  | nil => exact ⟨le_refl _, le_refl _⟩
  | cons e t ih =>
    have hstep := specEvaluationStep_ge criteria scale hscale himp ab e
      (hvals e (by simp))
    have ht := ih (fun x hx => hvals x (by simp [hx]))
      (specEvaluationStep criteria scale ab e)
    exact ⟨le_trans hstep.1 ht.1, le_trans hstep.2 ht.2⟩

theorem priorBetaParams_ge_half (prior conc : ℚ) :
    (1:ℚ)/2 ≤ (priorBetaParams prior conc).1 ∧
    (1:ℚ)/2 ≤ (priorBetaParams prior conc).2 :=
  ⟨le_max_left _ _, le_max_left _ _⟩

theorem specEvaluationStep_strong (criteria : List Criterion) (scale : ℚ)
    (ab : ℚ × ℚ) (cid : String) :
    specEvaluationStep criteria scale ab ⟨cid, true, 100, 100⟩ =
      (ab.1 + (evaluationImportance criteria ⟨cid, true, 100, 100⟩ / 100) * scale,
       ab.2) := by
  unfold specEvaluationStep
  norm_num

/-- C7 (amended): appending a supporting evaluation with strength = 100 and
confidence = 100 (correlation adjustment off) never decreases the EXACT
mean α/(α+β) of the aggregated Beta parameters.  The posterior value the
entry point returns is a fresh Monte-Carlo estimate of that mean and can
decrease by sampling noise (see the counterexample). -/
theorem c7_exact_mean_monotone (prior : ℚ)
    (evaluations : List CriterionEvaluation) (criteria : List Criterion)
    (config : BayesianConfig) (groups : List CorrelationGroup) (cid : String)
    (hne : evaluations ≠ [])
    (hvals : ∀ e ∈ evaluations, 0 ≤ e.strength ∧ e.strength ≤ 100 ∧ 0 ≤ e.confidence)
    (himp : ∀ c ∈ criteria, 0 ≤ c.importance)
    (hscale : 0 ≤ config.evidenceStrengthScale.getD EVIDENCE_STRENGTH_SCALE)
    (hcorr : config.applyCorrelationAdjustment.getD false = false) :
    exactBetaMean (evalAggregatedParams prior evaluations criteria config groups) ≤
      exactBetaMean (evalAggregatedParams prior
        (evaluations ++ [⟨cid, true, 100, 100⟩]) criteria config groups) := by
  rw [evalAggregatedParams_corr_off _ _ _ _ _ hcorr,
    evalAggregatedParams_corr_off _ _ _ _ _ hcorr]
  unfold specAggregatedParams
  rw [List.foldl_append, List.foldl_cons, List.foldl_nil, specEvaluationStep_strong]
  have hge := specFold_ge criteria (config.evidenceStrengthScale.getD EVIDENCE_STRENGTH_SCALE)
    hscale himp evaluations hvals
    (priorBetaParams prior (config.priorConcentration.getD DEFAULT_PRIOR_CONCENTRATION))
  have hp := priorBetaParams_ge_half prior (config.priorConcentration.getD DEFAULT_PRIOR_CONCENTRATION)
  have ha : 0 < (evaluations.foldl
      (specEvaluationStep criteria (config.evidenceStrengthScale.getD EVIDENCE_STRENGTH_SCALE))
      (priorBetaParams prior (config.priorConcentration.getD DEFAULT_PRIOR_CONCENTRATION))).1 := by
    linarith [hge.1, hp.1]
  have hb : 0 < (evaluations.foldl
      (specEvaluationStep criteria (config.evidenceStrengthScale.getD EVIDENCE_STRENGTH_SCALE))
      (priorBetaParams prior (config.priorConcentration.getD DEFAULT_PRIOR_CONCENTRATION))).2 := by
    linarith [hge.2, hp.2]
  have hd : 0 ≤ (evaluationImportance criteria ⟨cid, true, 100, 100⟩ / 100) *
      (config.evidenceStrengthScale.getD EVIDENCE_STRENGTH_SCALE) :=
    mul_nonneg (div_nonneg (evaluationImportance_nonneg criteria himp _) (by norm_num)) hscale
  unfold exactBetaMean
  dsimp only
  rw [div_le_div_iff (by linarith) (by linarith)]
  nlinarith [mul_nonneg hd hb.le]

theorem c7_exact_mean_monotone_witness :
    (([⟨"b", true, 50, 100⟩] : List CriterionEvaluation) ≠ []) ∧
    (∀ e ∈ ([⟨"b", true, 50, 100⟩] : List CriterionEvaluation),
      0 ≤ e.strength ∧ e.strength ≤ 100 ∧ 0 ≤ e.confidence) ∧
    (∀ c ∈ ([] : List Criterion), 0 ≤ c.importance) ∧
    (0 ≤ ({} : BayesianConfig).evidenceStrengthScale.getD EVIDENCE_STRENGTH_SCALE) ∧
    (({} : BayesianConfig).applyCorrelationAdjustment.getD false = false) ∧
    exactBetaMean (evalAggregatedParams 50 [⟨"b", true, 50, 100⟩] [] {} []) ≤
      exactBetaMean (evalAggregatedParams 50
        ([⟨"b", true, 50, 100⟩] ++ [⟨"c", true, 100, 100⟩]) [] {} []) := by
  refine ⟨by simp, ?_, by simp, by norm_num [EVIDENCE_STRENGTH_SCALE], rfl, ?_⟩
  · intro e he
    rw [List.mem_singleton.mp he]
    norm_num
  · exact c7_exact_mean_monotone 50 [⟨"b", true, 50, 100⟩] [] {} [] "c"
      (by simp)
      (fun e he => by rw [List.mem_singleton.mp he]; norm_num)
      (by simp)
      (by norm_num [EVIDENCE_STRENGTH_SCALE])
      rfl

/-- C7 counterexample: appending the strongly supporting evaluation
(supportsDecision = true, strength = 100, confidence = 100) to the
non-empty evaluation set below DECREASES the returned posterior (60 to 59)
for this pair of possible sampler outputs, refuting the claim about the
value calculatePosteriorFromEvaluations returns. -/
theorem c7_posterior_counterexample :
    (calculatePosteriorFromEvaluations dropSampler 50
        ([⟨"b", true, 50, 100⟩] ++ [⟨"a", true, 100, 100⟩]) [] {} []).posterior <
      (calculatePosteriorFromEvaluations dropSampler 50
        [⟨"b", true, 50, 100⟩] [] {} []).posterior := by
  have hbase : evalAggregatedParams 50 [⟨"b", true, 50, 100⟩] [] {} [] = (25/4, 25/4) := by
    unfold evalAggregatedParams evaluationStep computeEvaluationPseudoCount
      evaluationImportance priorBetaParams
    norm_num [EVIDENCE_STRENGTH_SCALE, DEFAULT_PRIOR_CONCENTRATION, MIN_BETA_PARAM]
  have haug : evalAggregatedParams 50
      ([⟨"b", true, 50, 100⟩] ++ [⟨"a", true, 100, 100⟩]) [] {} [] = (35/4, 25/4) := by
    unfold evalAggregatedParams evaluationStep computeEvaluationPseudoCount
      evaluationImportance priorBetaParams
    norm_num [EVIDENCE_STRENGTH_SCALE, DEFAULT_PRIOR_CONCENTRATION, MIN_BETA_PARAM]
  have hs1 : dropSampler (25/4) (25/4) MONTE_CARLO_SAMPLES =
      List.replicate 10000 (3/5) := by
    norm_num [dropSampler, MONTE_CARLO_SAMPLES]
  have hs2 : dropSampler (35/4) (25/4) MONTE_CARLO_SAMPLES =
      List.replicate 10000 (59/100) := by
    norm_num [dropSampler, MONTE_CARLO_SAMPLES]
  unfold calculatePosteriorFromEvaluations
  dsimp only
  rw [if_neg (by norm_num), if_neg (by norm_num)]
  dsimp only
  rw [hbase, haug, hs1, hs2, mean_replicate _ (by norm_num), mean_replicate _ (by norm_num)]
  norm_num

/-!  Claim C6: leave-one-out sensitivity analysis. -/

theorem sorted_mergeSort_absImpact (l : List SensitivityItem) :
    List.Sorted (fun x y : SensitivityItem => |y.impact| ≤ |x.impact|)
      (l.mergeSort (fun a b => decide (|b.impact| ≤ |a.impact|))) := by
  have h := @List.sorted_mergeSort SensitivityItem
    (fun a b : SensitivityItem => decide (|b.impact| ≤ |a.impact|))
    (fun a b c h1 h2 => by
      simp only [decide_eq_true_eq] at *
      exact le_trans h2 h1)
    (fun a b => by
      simp only [Bool.or_eq_true, decide_eq_true_eq]
      exact le_total _ _)
    l
  simpa [List.Sorted] using h

theorem computeSensitivityAnalysis_spec (S : Sampler) (prior : ℚ)
    (evaluations : List CriterionEvaluation) (criteria : List Criterion)
    (fullPosterior : ℚ) (config : BayesianConfig)
    (h2 : 2 ≤ evaluations.length) :
    (computeSensitivityAnalysis S prior evaluations criteria fullPosterior
      config).length = evaluations.length ∧
    List.Sorted (fun x y : SensitivityItem => |y.impact| ≤ |x.impact|)
      (computeSensitivityAnalysis S prior evaluations criteria fullPosterior config) ∧
    ∀ item ∈ computeSensitivityAnalysis S prior evaluations criteria fullPosterior config,
      ∃ e ∈ evaluations,
        item.criterionId = e.criterionId ∧
        item.direction = (if e.supportsDecision then SensitivityDirection.supporting
          else SensitivityDirection.opposing) ∧
        item.impact = jsRound1 (fullPosterior -
          calculatePosteriorFromEvaluationsInternal S prior
            (evaluations.filter (fun x => x.criterionId != e.criterionId))
            criteria config) := by
  unfold computeSensitivityAnalysis
  rw [if_neg (by omega)]
  refine ⟨?_, ?_, ?_⟩
  · rw [List.length_mergeSort, List.length_map]
  · exact sorted_mergeSort_absImpact _
  · intro item hitem
    have hmem := (List.mergeSort_perm (evaluations.map _) _).mem_iff.mp hitem
    obtain ⟨e, he, rfl⟩ := List.mem_map.mp hmem
    exact ⟨e, he, rfl, rfl, rfl⟩

/-- C6 (amended): with at most one evaluation the sensitivity list is empty;
with two or more it has one entry per evaluation, sorted descending by
absolute impact, each entry's direction given by the held-out evaluation's
own supportsDecision flag, and each entry's impact equal to the difference
(full posterior mean - posterior mean recomputed with every evaluation
sharing that criterionId excluded) ROUNDED TO ONE DECIMAL
(Math.round(x*10)/10). -/
theorem c6_sensitivity (S : Sampler) (prior : ℚ)
    (evaluations : List CriterionEvaluation) (criteria : List Criterion)
    (config : BayesianConfig) (groups : List CorrelationGroup) :
    (evaluations.length ≤ 1 →
      (calculatePosteriorFromEvaluations S prior evaluations criteria config
        groups).sensitivityAnalysis = []) ∧
    (2 ≤ evaluations.length →
      ((calculatePosteriorFromEvaluations S prior evaluations criteria config
          groups).sensitivityAnalysis.length = evaluations.length ∧
       List.Sorted (fun x y : SensitivityItem => |y.impact| ≤ |x.impact|)
         (calculatePosteriorFromEvaluations S prior evaluations criteria config
           groups).sensitivityAnalysis ∧
       ∀ item ∈ (calculatePosteriorFromEvaluations S prior evaluations criteria
           config groups).sensitivityAnalysis,
         ∃ e ∈ evaluations,
           item.criterionId = e.criterionId ∧
           item.direction = (if e.supportsDecision then SensitivityDirection.supporting
             else SensitivityDirection.opposing) ∧
           item.impact = jsRound1
             (mean (S (evalAggregatedParams prior evaluations criteria config groups).1
                (evalAggregatedParams prior evaluations criteria config groups).2
                MONTE_CARLO_SAMPLES) * 100 -
              calculatePosteriorFromEvaluationsInternal S prior
                (evaluations.filter (fun x => x.criterionId != e.criterionId))
                criteria config))) := by
  constructor
  · intro h1
    unfold calculatePosteriorFromEvaluations
    dsimp only
    by_cases h0 : evaluations.length = 0
    · rw [if_pos h0]
    · rw [if_neg h0]
      dsimp only
      unfold computeSensitivityAnalysis
      rw [if_pos h1]
  · intro h2
    have h0 : ¬ evaluations.length = 0 := by omega
    unfold calculatePosteriorFromEvaluations
    dsimp only
    rw [if_neg h0]
    dsimp only
    exact computeSensitivityAnalysis_spec S prior evaluations criteria _ config h2

theorem c6_sensitivity_witness :
    (([sampleEval] : List CriterionEvaluation).length ≤ 1 ∧
     (calculatePosteriorFromEvaluations constHalfSampler 50 [sampleEval] [] {}
       []).sensitivityAnalysis = []) ∧
    (2 ≤ ([sampleEval, evalB] : List CriterionEvaluation).length ∧
     ((calculatePosteriorFromEvaluations constHalfSampler 50 [sampleEval, evalB] [] {}
         []).sensitivityAnalysis.length = ([sampleEval, evalB] : List CriterionEvaluation).length ∧
      List.Sorted (fun x y : SensitivityItem => |y.impact| ≤ |x.impact|)
        (calculatePosteriorFromEvaluations constHalfSampler 50 [sampleEval, evalB] [] {}
          []).sensitivityAnalysis ∧
      ∀ item ∈ (calculatePosteriorFromEvaluations constHalfSampler 50 [sampleEval, evalB]
          [] {} []).sensitivityAnalysis,
        ∃ e ∈ ([sampleEval, evalB] : List CriterionEvaluation),
          item.criterionId = e.criterionId ∧
          item.direction = (if e.supportsDecision then SensitivityDirection.supporting
            else SensitivityDirection.opposing) ∧
          item.impact = jsRound1
            (mean (constHalfSampler
                (evalAggregatedParams 50 [sampleEval, evalB] [] {} []).1
                (evalAggregatedParams 50 [sampleEval, evalB] [] {} []).2
                MONTE_CARLO_SAMPLES) * 100 -
             calculatePosteriorFromEvaluationsInternal constHalfSampler 50
               (([sampleEval, evalB] : List CriterionEvaluation).filter
                 (fun x => x.criterionId != e.criterionId)) [] {}))) :=
  ⟨⟨by norm_num,
    (c6_sensitivity constHalfSampler 50 [sampleEval] [] {} []).1 (by norm_num)⟩,
   ⟨by norm_num,
    (c6_sensitivity constHalfSampler 50 [sampleEval, evalB] [] {} []).2 (by norm_num)⟩⟩

theorem nudge_jsRound1 : jsRound1 (((1:ℚ)/2 + 3/100000) * 100 - 50) = 0 := by
  unfold jsRound1 jsRound
  rw [show ((((1:ℚ)/2 + 3/100000) * 100 - 50) * 10 + 1/2) = 53/100 by norm_num]
  norm_num [Int.floor_eq_iff]

theorem c6_full_params : evalAggregatedParams 50 [sampleEval, evalB] [] {} [] = (10, 5) := by
  unfold evalAggregatedParams evaluationStep computeEvaluationPseudoCount
    evaluationImportance priorBetaParams sampleEval evalB
  norm_num [EVIDENCE_STRENGTH_SCALE, DEFAULT_PRIOR_CONCENTRATION, MIN_BETA_PARAM]

theorem c6_redA_params : evalAggregatedParams 50 [sampleEval] []
    { applyCorrelationAdjustment := some false } [] = (15/2, 5) := by
  unfold evalAggregatedParams evaluationStep computeEvaluationPseudoCount
    evaluationImportance priorBetaParams sampleEval
  norm_num [EVIDENCE_STRENGTH_SCALE, DEFAULT_PRIOR_CONCENTRATION, MIN_BETA_PARAM]

theorem c6_redB_params : evalAggregatedParams 50 [evalB] []
    { applyCorrelationAdjustment := some false } [] = (15/2, 5) := by
  unfold evalAggregatedParams evaluationStep computeEvaluationPseudoCount
    evaluationImportance priorBetaParams evalB
  norm_num [EVIDENCE_STRENGTH_SCALE, DEFAULT_PRIOR_CONCENTRATION, MIN_BETA_PARAM]

theorem nudge_full_samples : nudgeSampler 10 5 MONTE_CARLO_SAMPLES =
    List.replicate 10000 ((1:ℚ)/2 + 3/100000) := by
  unfold nudgeSampler MONTE_CARLO_SAMPLES
  norm_num

theorem nudge_red_samples : nudgeSampler (15/2) 5 MONTE_CARLO_SAMPLES =
    List.replicate 10000 ((1:ℚ)/2) := by
  unfold nudgeSampler MONTE_CARLO_SAMPLES
  norm_num

theorem c6_internal_A : calculatePosteriorFromEvaluationsInternal nudgeSampler 50
    [sampleEval] [] {} = 50 := by
  unfold calculatePosteriorFromEvaluationsInternal
  rw [show ({ ({} : BayesianConfig) with applyCorrelationAdjustment := some false } :
      BayesianConfig) = { applyCorrelationAdjustment := some false } from rfl]
  rw [c6_redA_params]
  dsimp only
  rw [nudge_red_samples, mean_replicate _ (by norm_num)]
  norm_num

theorem c6_internal_B : calculatePosteriorFromEvaluationsInternal nudgeSampler 50
    [evalB] [] {} = 50 := by
  unfold calculatePosteriorFromEvaluationsInternal
  rw [show ({ ({} : BayesianConfig) with applyCorrelationAdjustment := some false } :
      BayesianConfig) = { applyCorrelationAdjustment := some false } from rfl]
  rw [c6_redB_params]
  dsimp only
  rw [nudge_red_samples, mean_replicate _ (by norm_num)]
  norm_num

/-- C6 counterexample: at this pair of possible sampler outputs every
reported impact is 0 (the rounded value of 0.003), while the full posterior
mean minus the posterior mean with the first evaluation excluded is 0.003,
refuting the claim that the reported impact EQUALS that difference. -/
theorem c6_impact_rounding_counterexample :
    ((calculatePosteriorFromEvaluations nudgeSampler 50 [sampleEval, evalB] [] {}
        []).sensitivityAnalysis.map SensitivityItem.impact = [0, 0]) ∧
    (mean (nudgeSampler (evalAggregatedParams 50 [sampleEval, evalB] [] {} []).1
        (evalAggregatedParams 50 [sampleEval, evalB] [] {} []).2
        MONTE_CARLO_SAMPLES) * 100 -
      calculatePosteriorFromEvaluationsInternal nudgeSampler 50
        (([sampleEval, evalB] : List CriterionEvaluation).filter
          (fun x => x.criterionId != sampleEval.criterionId)) [] {} = 3/1000) ∧
    ((3:ℚ)/1000 ≠ 0) := by
  have hfilterA : ([sampleEval, evalB] : List CriterionEvaluation).filter
      (fun x => x.criterionId != sampleEval.criterionId) = [evalB] := by decide
  have hfilterB : ([sampleEval, evalB] : List CriterionEvaluation).filter
      (fun x => x.criterionId != evalB.criterionId) = [sampleEval] := by decide
  refine ⟨?_, ?_, by norm_num⟩
  · unfold calculatePosteriorFromEvaluations
    dsimp only
    rw [if_neg (by norm_num)]
    dsimp only
    rw [c6_full_params]
    dsimp only
    rw [nudge_full_samples, mean_replicate _ (by norm_num)]
    have hall : ∀ item ∈ computeSensitivityAnalysis nudgeSampler 50
        [sampleEval, evalB] [] (((1:ℚ)/2 + 3/100000) * 100) {},
        item.impact = 0 := by
      intro item hitem
      unfold computeSensitivityAnalysis at hitem
      rw [if_neg (by norm_num)] at hitem
      have hmem := (List.mergeSort_perm _ _).mem_iff.mp hitem
      obtain ⟨e, he, rfl⟩ := List.mem_map.mp hmem
      rcases List.mem_cons.mp he with rfl | he2
      · dsimp only
        rw [hfilterA, c6_internal_B]
        exact nudge_jsRound1
      · rw [List.mem_singleton.mp he2]
        dsimp only
        rw [hfilterB, c6_internal_A]
        exact nudge_jsRound1
    have hlen2 : (computeSensitivityAnalysis nudgeSampler 50 [sampleEval, evalB] []
        (((1:ℚ)/2 + 3/100000) * 100) {}).length = 2 := by
      unfold computeSensitivityAnalysis
      rw [if_neg (by norm_num)]
      rw [List.length_mergeSort, List.length_map]
      rfl
    rw [show ([0, 0] : List ℚ) = List.replicate 2 0 from rfl, List.eq_replicate_iff]
    refine ⟨by rw [List.length_map, hlen2], ?_⟩
    intro b hb
    obtain ⟨item, hi, rfl⟩ := List.mem_map.mp hb
    exact hall item hi
  · rw [c6_full_params]
    dsimp only
    rw [nudge_full_samples, mean_replicate _ (by norm_num), hfilterA, c6_internal_B]
    norm_num

/-!  Claim C4: determinism and seedability. -/

/-- C4 (amended): both entry points are deterministic functions of their
API inputs and the sampler's output stream - no other hidden state enters
the result - and BayesianConfig consists of exactly the four fields
evidenceStrengthScale, priorConcentration, applyCorrelationAdjustment and
useQuasiRandom, none of which is a seed or random generator. -/
theorem c4_determinism (S1 S2 : Sampler)
    (h : ∀ (a b : ℚ) (n : ℕ), S1 a b n = S2 a b n)
    (prior : ℚ) (evidence : List EvidenceItem)
    (evaluations : List CriterionEvaluation) (criteria : List Criterion)
    (config : BayesianConfig) (groups : List CorrelationGroup) :
    calculatePosterior S1 prior evidence config =
      calculatePosterior S2 prior evidence config ∧
    calculatePosteriorFromEvaluations S1 prior evaluations criteria config groups =
      calculatePosteriorFromEvaluations S2 prior evaluations criteria config groups ∧
    (∀ cfg : BayesianConfig,
      cfg = ⟨cfg.evidenceStrengthScale, cfg.priorConcentration,
             cfg.applyCorrelationAdjustment, cfg.useQuasiRandom⟩) := by
  obtain rfl : S1 = S2 := funext fun a => funext fun b => funext fun n => h a b n
  exact ⟨rfl, rfl, fun cfg => rfl⟩

theorem c4_determinism_witness :
    (∀ (a b : ℚ) (n : ℕ), constHalfSampler a b n = constHalfSampler a b n) ∧
    (calculatePosterior constHalfSampler 50 [] {} =
       calculatePosterior constHalfSampler 50 [] {} ∧
     calculatePosteriorFromEvaluations constHalfSampler 50 [sampleEval] [] {} [] =
       calculatePosteriorFromEvaluations constHalfSampler 50 [sampleEval] [] {} [] ∧
     (∀ cfg : BayesianConfig,
       cfg = ⟨cfg.evidenceStrengthScale, cfg.priorConcentration,
              cfg.applyCorrelationAdjustment, cfg.useQuasiRandom⟩)) :=
  ⟨fun _ _ _ => rfl,
   c4_determinism constHalfSampler constHalfSampler (fun _ _ _ => rfl)
     50 [] [sampleEval] [] {} []⟩

/-- C4 counterexample: the quasi-random stream, and with it the sampler
output, depends on the offset drawn from the global Math.random - which no
API input (and no BayesianConfig field) controls.  Two invocations with
identical API-level inputs (α = β = 1, n = 3, useQuasiRandom = true) differ
when that hidden draw differs, so the API is not seedable as claimed. -/
theorem c4_seed_counterexample :
    generateQuasiRandomSequence 0 3 ≠ generateQuasiRandomSequence 1 3 ∧
    sampleBetaStable (oracleWithOffset 0) 1 1 3 true ≠
      sampleBetaStable (oracleWithOffset 1) 1 1 3 true := by
  have hvals : generateQuasiRandomSequence 0 3 ≠ generateQuasiRandomSequence 1 3 := by
    norm_num [generateQuasiRandomSequence, List.range_succ, vanDerCorput, vdcGo]
  refine ⟨hvals, ?_⟩
  have hred : ∀ o : ℕ, sampleBetaStable (oracleWithOffset o) 1 1 3 true =
      generateQuasiRandomSequence o 3 := by
    intro o
    unfold sampleBetaStable
    rw [if_pos (by norm_num : (1:ℚ)/10 ≤ 1 ∧ (1:ℚ)/10 ≤ 1 ∧ (1:ℚ) ≤ 1000 ∧ (1:ℚ) ≤ 1000),
      if_pos rfl]
    dsimp only [oracleWithOffset]
    simp
  rw [hred, hred]
  exact hvals

/-!  Claim C8: the extreme-parameter rejection sampler. -/

theorem betaMode_interior (alpha beta : ℚ) :
    0 < betaMode alpha beta ∧ betaMode alpha beta < 1 := by
  unfold betaMode
  split
  · rename_i h
    obtain ⟨ha, hb⟩ := h
    constructor
    · apply div_pos <;> linarith
    · rw [div_lt_one (by linarith)]
      linarith
  · split <;> norm_num

theorem acceptProposal_interior (O : SamplingOracle) (core : ℚ → ℚ)
    (pdfModeV : Option ℚ) (x u : ℚ)
    (h : acceptProposal O (logBetaPdfM core) pdfModeV x u = true) :
    0 < x ∧ x < 1 := by
  unfold acceptProposal at h
  cases hp : logBetaPdfM core x with
  | none =>
    rw [hp] at h
    exact absurd h (by simp)
  | some px =>
    unfold logBetaPdfM at hp
    by_cases hx : x ≤ 0 ∨ 1 ≤ x
    · rw [if_pos hx] at hp
      exact absurd hp (by simp)
    · push_neg at hx
      exact ⟨hx.1, hx.2⟩

theorem rejectionLoop_length_le (O : SamplingOracle) (pdfAt : ℚ → Option ℚ)
    (pdfModeV : Option ℚ) (n : ℕ) :
    ∀ (fuel idx : ℕ) (acc : List ℚ), acc.length ≤ n →
      (rejectionLoop O pdfAt pdfModeV n fuel idx acc).length ≤ n := by
  intro fuel
  induction fuel with
  | zero =>
    intro idx acc h
    unfold rejectionLoop
    exact h
  | succ f ih =>
    intro idx acc h
    unfold rejectionLoop
    by_cases hlt : acc.length < n
    · rw [if_pos hlt]
      apply ih
      by_cases hacc : acceptProposal O pdfAt pdfModeV (O.rand idx) (O.rand (idx + 1))
      · rw [if_pos hacc, List.length_append]
        simpa using hlt
      · rw [if_neg hacc]
        exact h
    · rw [if_neg hlt]
      exact h

theorem rejectionLoop_mem (O : SamplingOracle) (core : ℚ → ℚ)
    (pdfModeV : Option ℚ) (n : ℕ) :
    ∀ (fuel idx : ℕ) (acc : List ℚ), (∀ y ∈ acc, 0 < y ∧ y < 1) →
      ∀ x ∈ rejectionLoop O (logBetaPdfM core) pdfModeV n fuel idx acc,
        0 < x ∧ x < 1 := by
  intro fuel
  induction fuel with
  | zero =>
    intro idx acc hacc x hx
    unfold rejectionLoop at hx
    exact hacc x hx
  | succ f ih =>
    intro idx acc hacc x hx
    unfold rejectionLoop at hx
    by_cases hlt : acc.length < n
    · rw [if_pos hlt] at hx
      refine ih (idx + 2) _ ?_ x hx
      intro y hy
      by_cases hacc2 : acceptProposal O (logBetaPdfM core) pdfModeV (O.rand idx)
        (O.rand (idx + 1))
      · rw [if_pos hacc2] at hy
        rcases List.mem_append.mp hy with hy1 | hy2
        · exact hacc y hy1
        · rw [List.mem_singleton.mp hy2]
          exact acceptProposal_interior O core pdfModeV _ _ hacc2
      · rw [if_neg hacc2] at hy
        exact hacc y hy
    · rw [if_neg hlt] at hx
      exact hacc x hx

theorem fallbackFill_length (O : SamplingOracle) (mode : ℚ) (k : ℕ) :
    (fallbackFill O mode k).length = k := by
  simp [fallbackFill]

theorem fallbackFill_mem (O : SamplingOracle) (mode : ℚ) (k : ℕ)
    (hjstat : ∀ (i : ℕ) (v : ℚ), O.jstatSample i = some v → 0 < v ∧ v < 1)
    (hmode : 0 < mode ∧ mode < 1) :
    ∀ x ∈ fallbackFill O mode k, 0 < x ∧ x < 1 := by
  intro x hx
  obtain ⟨i, _, rfl⟩ := List.mem_map.mp hx
  cases hj : O.jstatSample i with
  | none => simpa [hj] using hmode
  | some v => simpa [hj] using hjstat i v hj

/-- C8: in the extreme-parameter regime (α or β outside [0.1, 1000])
sampleBetaStable returns exactly n samples, all strictly inside (0, 1)
(in particular no NaN or infinity is possible: every output is a
well-defined rational in that interval), provided jStat's direct sampler
only returns values in (0, 1) when it does not throw; and the mode it
normalises the rejection test by is (α-1)/(α+β-2) when α, β > 1, else 0.99
when α ≥ β and 0.01 otherwise.  The attempt cap 100 x n and the
rejection - direct sampling - mode fallback chain are structural in
sampleBetaStable, rejectionLoop and fallbackFill. -/
theorem c8_extreme_sampler (O : SamplingOracle) (alpha beta : ℚ) (n : ℕ)
    (useQuasiRandom : Bool)
    (hext : ¬ (1/10 ≤ alpha ∧ 1/10 ≤ beta ∧ alpha ≤ 1000 ∧ beta ≤ 1000))
    (hjstat : ∀ (i : ℕ) (v : ℚ), O.jstatSample i = some v → 0 < v ∧ v < 1) :
    (sampleBetaStable O alpha beta n useQuasiRandom).length = n ∧
    (∀ x ∈ sampleBetaStable O alpha beta n useQuasiRandom, 0 < x ∧ x < 1) ∧
    betaMode alpha beta = (if 1 < alpha ∧ 1 < beta then (alpha - 1) / (alpha + beta - 2)
      else if beta ≤ alpha then 99/100 else 1/100) := by
  unfold sampleBetaStable
  rw [if_neg hext]
  dsimp only
  have hmode := betaMode_interior alpha beta
  have hrlen := rejectionLoop_length_le O (logBetaPdfM (O.pdfCore alpha beta))
    (logBetaPdfM (O.pdfCore alpha beta) (betaMode alpha beta)) n (n * 100) 0 []
    (by simp)
  refine ⟨?_, ?_, rfl⟩
  · rw [List.length_append, fallbackFill_length]
    omega
  · intro x hx
    rcases List.mem_append.mp hx with h1 | h2
    · exact rejectionLoop_mem O (O.pdfCore alpha beta) _ n (n * 100) 0 []
        (by simp) x h1
    · exact fallbackFill_mem O _ _ hjstat hmode x h2

theorem c8_extreme_sampler_witness :
    (¬ ((1:ℚ)/10 ≤ 2000 ∧ (1:ℚ)/10 ≤ 1/2 ∧ (2000:ℚ) ≤ 1000 ∧ (1:ℚ)/2 ≤ 1000)) ∧
    (∀ (i : ℕ) (v : ℚ), (oracleWithOffset 0).jstatSample i = some v → 0 < v ∧ v < 1) ∧
    ((sampleBetaStable (oracleWithOffset 0) 2000 (1/2) 2 true).length = 2 ∧
     (∀ x ∈ sampleBetaStable (oracleWithOffset 0) 2000 (1/2) 2 true, 0 < x ∧ x < 1) ∧
     betaMode 2000 (1/2) = (if (1:ℚ) < 2000 ∧ (1:ℚ) < 1/2 then (2000 - 1) / (2000 + 1/2 - 2)
       else if (1:ℚ)/2 ≤ 2000 then 99/100 else 1/100)) := by
  refine ⟨by norm_num, ?_, ?_⟩
  · intro i v h
    simp [oracleWithOffset] at h
  · exact c8_extreme_sampler (oracleWithOffset 0) 2000 (1/2) 2 true (by norm_num)
      (by intro i v h; simp [oracleWithOffset] at h)

/-!  Claim C9: the Geweke convergence diagnostic. -/

theorem computeGewekeDiagnostic_eq_spec (samples : List ℚ) :
    computeGewekeDiagnostic samples = normalizeNaN (gewekeSpecZ samples) := by
  unfold computeGewekeDiagnostic gewekeSpecZ normalizeNaN
  dsimp only
  rw [List.length_take, min_eq_left (Nat.div_le_self _ _), List.length_drop,
    Nat.sub_sub_self (Nat.div_le_self _ _)]
  rw [Real.mul_self_sqrt
      (div_nonneg (by exact_mod_cast variance_nonneg _) (Nat.cast_nonneg _)),
    Real.mul_self_sqrt
      (div_nonneg (by exact_mod_cast variance_nonneg _) (Nat.cast_nonneg _))]

/-- C9 (amended): for every sample sequence with at least 10 elements (the
engine always passes 10000), the REPORTED gewekeZScore equals the claim's
formula value, NaN-normalised to 0, then ROUNDED TO TWO DECIMALS
(Math.round(z*100)/100); and isConverged holds iff |z| < 1.96 for the
UNROUNDED normalised z. -/
theorem c9_geweke (samples : List ℚ) (hlen : 10 ≤ samples.length) :
    (computeConvergenceDiagnostic samples).gewekeZScore =
      (normalizeNaN (gewekeSpecZ samples)).mapFin (fun x => jsRoundR (x * 100) / 100) ∧
    ((computeConvergenceDiagnostic samples).isConverged ↔
      (normalizeNaN (gewekeSpecZ samples)).absLt (196/100)) := by
  unfold computeConvergenceDiagnostic
  dsimp only
  rw [computeGewekeDiagnostic_eq_spec]
  exact ⟨rfl, by unfold GEWEKE_THRESHOLD; exact Iff.rfl⟩

theorem c9_geweke_witness :
    10 ≤ (List.replicate 10 ((1:ℚ)/2)).length ∧
    ((computeConvergenceDiagnostic (List.replicate 10 ((1:ℚ)/2))).gewekeZScore =
       (normalizeNaN (gewekeSpecZ (List.replicate 10 ((1:ℚ)/2)))).mapFin
         (fun x => jsRoundR (x * 100) / 100) ∧
     ((computeConvergenceDiagnostic (List.replicate 10 ((1:ℚ)/2))).isConverged ↔
       (normalizeNaN (gewekeSpecZ (List.replicate 10 ((1:ℚ)/2)))).absLt (196/100))) :=
  ⟨by simp, c9_geweke _ (by simp)⟩

theorem gewekeList_length : gewekeList.length = 10000 := by
  unfold gewekeList
  rw [List.length_append, List.length_append, List.length_cons,
    List.length_replicate, List.length_replicate, List.length_replicate]

theorem gewekeList_take : gewekeList.take 1000 =
    List.replicate 1000 ((1003:ℚ)/5000000) := by
  unfold gewekeList
  exact List.take_left' (List.length_replicate 1000 _)

theorem gewekeList_drop : gewekeList.drop 5000 = 1 :: List.replicate 4999 0 := by
  unfold gewekeList
  rw [← List.append_assoc]
  refine List.drop_left' ?_
  rw [List.length_append, List.length_replicate, List.length_replicate]

theorem jsDiv_eq_fin {a b c : ℝ} (hb : b ≠ 0) (h : a / b = c) :
    jsDiv a b = JSNum.fin c := by
  unfold jsDiv
  rw [if_neg hb, h]

theorem gewekeList_mean2 : mean (1 :: List.replicate 4999 (0:ℚ)) = 1/5000 := by
  unfold mean
  rw [List.sum_cons, List.sum_replicate, List.length_cons, List.length_replicate]
  norm_num

theorem gewekeList_var2 : variance (1 :: List.replicate 4999 (0:ℚ)) = 1/5000 := by
  unfold variance
  rw [if_neg (by rw [List.length_cons, List.length_replicate]; norm_num)]
  rw [gewekeList_mean2, List.map_cons, List.map_replicate, List.sum_cons,
    List.sum_replicate, List.length_cons, List.length_replicate]
  norm_num

/-- C9 counterexample: for the sample sequence gewekeList the reported
gewekeZScore is 0 while the claimed formula evaluates to 0.003, so the
reported score does not equal the formula (the code rounds it to two
decimals first). -/
theorem c9_rounding_counterexample :
    (computeConvergenceDiagnostic gewekeList).gewekeZScore = JSNum.fin 0 ∧
    normalizeNaN (gewekeSpecZ gewekeList) = JSNum.fin (3/1000) ∧
    JSNum.fin (0:ℝ) ≠ JSNum.fin ((3:ℝ)/1000) := by
  have hspec : gewekeSpecZ gewekeList = JSNum.fin (3/1000) := by
    unfold gewekeSpecZ
    dsimp only
    rw [gewekeList_length]
    rw [show (10000:ℕ)/10 = 1000 from rfl, show (10000:ℕ)/2 = 5000 from rfl,
      show (10000:ℕ) - 5000 = 5000 from rfl]
    rw [gewekeList_take, gewekeList_drop]
    rw [mean_replicate _ (by norm_num), variance_replicate, gewekeList_mean2,
      gewekeList_var2, List.length_replicate, List.length_cons, List.length_replicate]
    push_cast
    rw [show ((0:ℝ)/1000 + 1/5000/5000) = ((1:ℝ)/5000)^2 by norm_num]
    rw [Real.sqrt_sq (by norm_num : (0:ℝ) ≤ 1/5000)]
    exact jsDiv_eq_fin (by norm_num) (by norm_num)
  refine ⟨?_, by rw [hspec]; rfl, by intro h; injection h with h1; norm_num at h1⟩
  unfold computeConvergenceDiagnostic
  dsimp only
  rw [computeGewekeDiagnostic_eq_spec, hspec]
  unfold normalizeNaN JSNum.mapFin
  dsimp only
  rw [show ((3:ℝ)/1000 * 100) = 3/10 by norm_num]
  unfold jsRoundR
  rw [show ((3:ℝ)/10 + 1/2) = 4/5 by norm_num]
  rw [show ⌊(4:ℝ)/5⌋ = 0 from by rw [Int.floor_eq_zero_iff]; constructor <;> norm_num]
  norm_num

end Bayesian

